import Mathlib

/-!
Shallow embedding of the DNS latency probe (src/dns-delay-testing.py).

The program has three pure-logic parts worth modelling — server-spec
parsing (`test_dns_latency` lines 26-49), the port-connectivity check
(`test_port_connectivity` lines 8-19) and the failure-diagnostic
construction (lines 67-88) — plus the aggregation loop and summary in
`main` (lines 114-148).  All interaction with the outside world
(socket construction, `gethostbyname`, the system resolver, `connect_ex`
and the timed DNS query) is abstracted into an `Env` of oracles; a
Python exception raised by an oracle is an `Except.error` value, and an
exception propagating out of a modelled function is an `Except.error`
result of that function.  Latencies are modelled as rationals (the float
arithmetic itself is never branched on by the program).
-/

namespace DnsDelay

/-- Python exception values distinguished by the embedded code. -/
inductive PyErr where
  | valueError (msg : String)
  | gaierror (msg : String)
  | oserror (msg : String)
  | zeroDivisionError
deriving Repr, DecidableEq

/-- Message text of an exception, as `str(e)` would render it. -/
def pyErrMsg : PyErr → String
  | .valueError m => m
  | .gaierror m => m
  | .oserror m => m
  | .zeroDivisionError => "division by zero"

/-- Does `pat` occur at the head of `cs`?  Building block for Python's
substring test. -/
def leadsWith : List Char → List Char → Bool
  | [], _ => true
  | _ :: _, [] => false
  | a :: as, b :: bs => a == b && leadsWith as bs

/-- Does `pat` occur anywhere in the second list? -/
def hasSub (pat : List Char) : List Char → Bool
  | [] => pat.isEmpty
  | c :: rest => leadsWith pat (c :: rest) || hasSub pat rest

/-- Python's substring test `pat in s`. -/
def pyIn (pat s : String) : Bool := hasSub pat.data s.data

/-- Python's `str.lower()` (the program only ever probes for the ASCII
substrings "timeout" and "refused", for which ASCII lowercasing agrees
with Python's Unicode lowercasing). -/
def pyLower (s : String) : String := (s.data.map Char.toLower).asString

/-- Python's character membership test `c in s`. -/
def pyHasChar (s : String) (c : Char) : Bool := s.data.any (fun a => a == c)

/-- Python's `s.split(c, 1)`: the part before the first occurrence of `c`
and everything after it.  When `c` does not occur the second component is
empty (the program only calls this after checking `c in s`). -/
def splitFirst (s : String) (c : Char) : String × String :=
  ((s.data.takeWhile (fun a => a != c)).asString,
   ((s.data.dropWhile (fun a => a != c)).drop 1).asString)

/-- Numeric value of a decimal digit character. -/
def digitVal (c : Char) : Nat := c.toNat - 48

/-- Digits of a Python integer literal after the first: decimal digits
with single underscores allowed between digits. -/
def pyDigits : List Char → Nat → Option Nat
  | [], acc => some acc
  | '_' :: c :: cs, acc =>
      if c.isDigit then pyDigits cs (acc * 10 + digitVal c) else none
  | ['_'], _ => none
  | c :: cs, acc =>
      if c.isDigit then pyDigits cs (acc * 10 + digitVal c) else none

/-- An unsigned Python integer literal: nonempty, starts with a digit. -/
def pyIntCore : List Char → Option Nat
  | [] => none
  | c :: cs => if c.isDigit then pyDigits cs (digitVal c) else none

/-- Python's `str.strip()` of surrounding whitespace. -/
def pyStrip (s : String) : String :=
  (((s.data.dropWhile Char.isWhitespace).reverse.dropWhile
      Char.isWhitespace).reverse).asString

/-- Python's `int(s)`: optional surrounding whitespace, optional sign,
then a decimal-digit literal.  `none` models a raised `ValueError`. -/
def pyInt (s : String) : Option Int :=
  match (pyStrip s).data with
  | '+' :: cs => (pyIntCore cs).map (fun n => (n : Int))
  | '-' :: cs => (pyIntCore cs).map (fun n => -(n : Int))
  | cs => (pyIntCore cs).map (fun n => (n : Int))

/-- Outcome of `socket.gethostbyname`: an address, a raised
`socket.gaierror` (the only exception the source catches there, line 39),
or some other raised exception. -/
inductive HostLookup where
  | ok (ip : String)
  | nameError (msg : String)
  | otherError (e : PyErr)
deriving Repr, DecidableEq

/-- True exactly when the lookup raised something other than
`socket.gaierror`. -/
def isOtherError : HostLookup → Bool
  | .otherError _ => true
  | _ => false

/-- Outcome of the timed `resolver.resolve(domain, 'A')` call: a reply
with its measured latency in milliseconds, or a raised exception with
its type name and message (the handler at line 67 catches every
exception). -/
inductive QueryReply where
  | ok (latencyMs : Rat)
  | exc (errType errMsg : String)
deriving Repr, DecidableEq

/-- The outside world as the probe observes it.  Arguments mirror what
the source passes at each call site. -/
structure Env where
  /-- `socket.gethostbyname(server_part)` (line 38). -/
  gethostbyname : String → HostLookup
  /-- `system_resolver.resolve(server_part, 'A')` through the default
  path with the probe timeout, returning `str(answers[0])` (lines 42-46);
  any raised exception appears as `Except.error`. -/
  resolveA : String → Int → Except PyErr String
  /-- `socket.socket(AF_INET, SOCK_STREAM)` (line 11). -/
  socketNew : Except PyErr Unit
  /-- `sock.settimeout(timeout)` (line 12). -/
  settimeout : Int → Except PyErr Unit
  /-- `sock.connect_ex((ip, port))` (line 13): an error code, or a raised
  exception. -/
  connectEx : String → Int → Except PyErr Int
  /-- The timed query of `domain` against nameserver `ip:port` with the
  configured timeout (lines 55-63). -/
  query : String → Int → String → Int → QueryReply

/-- What one call of `test_port_connectivity` did: its boolean verdict,
whether the socket object was constructed, whether `sock.close()` ran,
and the diagnostic lines it printed. -/
structure PortCheckResult where
  verdict : Bool
  socketCreated : Bool
  socketClosed : Bool
  printed : List String
deriving Repr, DecidableEq

/-- Lines 8-19 of the source.  `sock.close()` appears only on the path
where `connect_ex` returns normally; the `except` handler prints and
returns `False` without closing. -/
def test_port_connectivity (env : Env) (ip : String) (port : Int)
    (timeout : Int) : PortCheckResult :=
  match env.socketNew with
  | .error e =>
      ⟨false, false, false, ["  端口连接测试异常: " ++ pyErrMsg e]⟩
  | .ok _ =>
    match env.settimeout timeout with
    | .error e =>
        ⟨false, true, false, ["  端口连接测试异常: " ++ pyErrMsg e]⟩
    | .ok _ =>
      match env.connectEx ip port with
      | .error e =>
          ⟨false, true, false, ["  端口连接测试异常: " ++ pyErrMsg e]⟩
      | .ok code => ⟨code == 0, true, true, []⟩

/-- The concrete (ip, port) a server spec resolves to. -/
structure ResolvedTarget where
  ip : String
  port : Int
deriving Repr, DecidableEq

/-- Lines 36-49: the three-tier host resolution.  Only `socket.gaierror`
is caught around tier 1; tier 2 catches every exception and falls back
to the literal host string. -/
def resolve_host (env : Env) (server_part : String) (timeout : Int) :
    Except PyErr String :=
  match env.gethostbyname server_part with
  | .ok ip => .ok ip
  | .otherError e => .error e
  | .nameError _ =>
    match env.resolveA server_part timeout with
    | .ok answer => .ok answer
    | .error _ => .ok server_part

/-- Lines 26-49: port parsing (`int(port_part)` is outside every `try`,
so a parse failure is a propagating `ValueError`) followed by host
resolution. -/
def resolve_server (env : Env) (dns_server : String) (timeout : Int) :
    Except PyErr ResolvedTarget :=
  if pyHasChar dns_server ':' then
    match pyInt (splitFirst dns_server ':').2 with
    | none =>
        .error (.valueError ("invalid literal for int() with base 10: "
          ++ (splitFirst dns_server ':').2))
    | some p =>
        (resolve_host env (splitFirst dns_server ':').1 timeout).map
          (fun ip => ⟨ip, p⟩)
  else
    (resolve_host env dns_server timeout).map (fun ip => ⟨ip, 53⟩)

/-- Line 78 of the source. -/
def openClause : String := "端口开放但DNS服务可能未正常工作"

/-- Line 75 of the source. -/
def unreachClause (port : Int) : String := "端口" ++ toString port ++ "无法连接"

/-- Line 82 of the source. -/
def timeoutHint : String := "服务器响应缓慢、网络连接问题或防火墙限制"

/-- Line 84 of the source. -/
def refusedHint : String := "服务器拒绝连接、访问权限问题"

/-- Lines 71-84: the `additional_info` clause list of a failure
diagnostic — one reachability clause chosen by the port verdict, then
the `if`/`elif` cause hints. -/
def additional_info (port_open : Bool) (port : Int) (error_msg : String) :
    List String :=
  let base := if port_open then [openClause] else [unreachClause port]
  if pyIn "timeout" (pyLower error_msg) then base ++ [timeoutHint]
  else if pyIn "refused" (pyLower error_msg) then base ++ [refusedHint]
  else base

/-- Python's `sep.join(parts)`. -/
def joinWith (sep : String) : List String → String
  | [] => ""
  | [s] => s
  | s :: rest => s ++ sep ++ joinWith sep rest

/-- Line 87: the full diagnostic string of a failed attempt. -/
def full_error (error_type error_msg : String) (port_open : Bool)
    (port : Int) : String :=
  error_type ++ ": " ++ error_msg ++ "\n可能原因: "
    ++ joinWith ", " (additional_info port_open port error_msg)

/-- The `(success, result)` pair an attempt returns. -/
inductive ProbeOutcome where
  | success (latencyMs : Rat)
  | failure (message : String)
deriving Repr, DecidableEq

/-- Decidable equality of fallible results, used to compare probe runs. -/
instance {ε α : Type} [DecidableEq ε] [DecidableEq α] : DecidableEq (Except ε α) :=
  fun a b =>
  match a, b with
  | .ok x, .ok y =>
      if h : x = y then .isTrue (by rw [h])
      else .isFalse (fun hc => h (Except.ok.inj hc))
  | .error x, .error y =>
      if h : x = y then .isTrue (by rw [h])
      else .isFalse (fun hc => h (Except.error.inj hc))
  | .ok _, .error _ => .isFalse (fun hc => Except.noConfusion hc)
  | .error _, .ok _ => .isFalse (fun hc => Except.noConfusion hc)

/-- One call of `test_dns_latency`: either a returned outcome or a
propagated exception, together with how many DNS queries were issued
against the server under test. -/
structure ProbeRun where
  result : Except PyErr ProbeOutcome
  queriesIssued : Nat
deriving Repr, DecidableEq

/-- Lines 21-88 of the source.  The `retries` parameter is accepted and
never read, exactly as in the source. -/
def test_dns_latency (env : Env) (dns_server domain : String)
    (timeout retries : Int) : ProbeRun :=
  match resolve_server env dns_server timeout with
  | .error e => ⟨.error e, 0⟩
  | .ok t =>
    let pc := test_port_connectivity env t.ip t.port 2
    match env.query t.ip t.port domain timeout with
    | .ok lat => ⟨.ok (.success lat), 1⟩
    | .exc ty msg =>
        ⟨.ok (.failure (full_error ty msg pc.verdict t.port)), 1⟩

/-- The mutable collection state of the loop in `main` (lines 114-116). -/
structure LoopState where
  results : List (Bool × ProbeOutcome)
  success_count : Nat
  latency_list : List Rat
deriving Repr, DecidableEq

/-- Lines 126-133: how one attempt's outcome updates the collection. -/
def loopStep (s : LoopState) (o : ProbeOutcome) : LoopState :=
  match o with
  | .success lat =>
      ⟨s.results ++ [(true, ProbeOutcome.success lat)],
       s.success_count + 1, s.latency_list ++ [lat]⟩
  | .failure m =>
      ⟨s.results ++ [(false, ProbeOutcome.failure m)],
       s.success_count, s.latency_list⟩

/-- The loop of `main` over the outcomes of the attempts, starting from
the empty collection. -/
def runLoop (outcomes : List ProbeOutcome) : LoopState :=
  outcomes.foldl loopStep ⟨[], 0, []⟩

/-- The latency an outcome contributes to `latency_list`, if any. -/
def latOf : ProbeOutcome → Option Rat
  | .success l => some l
  | .failure _ => none

/-- The boolean `success` component of an outcome. -/
def isSuccess : ProbeOutcome → Bool
  | .success _ => true
  | .failure _ => false

/-- Python's true division on the summary's counts; dividing by zero
raises `ZeroDivisionError`. -/
def pyDivNat (a b : Nat) : Except PyErr Rat :=
  if b = 0 then .error .zeroDivisionError else .ok ((a : Rat) / (b : Rat))

/-- The values the summary block prints (lines 140-143). -/
structure Summary where
  total : Nat
  successes : Nat
  failures : Int
  rate : Rat
deriving Repr, DecidableEq

/-- Lines 138-143: the summary, whose success-rate line divides
`success_count` by `args.count` with no zero guard. -/
def run_summary (outcomes : List ProbeOutcome) : Except PyErr Summary :=
  match pyDivNat (runLoop outcomes).success_count outcomes.length with
  | .error e => .error e
  | .ok q =>
      .ok ⟨outcomes.length, (runLoop outcomes).success_count,
        (outcomes.length : Int) - ((runLoop outcomes).success_count : Int),
        q * 100⟩

/-- A benign world: every lookup echoes its input, the port connects,
and the query answers in 12 ms. -/
def envOk : Env where
  gethostbyname := fun s => .ok s
  resolveA := fun _ _ => .ok "198.51.100.7"
  socketNew := .ok ()
  settimeout := fun _ => .ok ()
  connectEx := fun _ _ => .ok 0
  query := fun _ _ _ _ => .ok 12

/-- A world where the host resolves nowhere: tier 1 raises
`socket.gaierror`, tier 2 raises, `connect_ex` on the literal host
raises `socket.gaierror`, and the query fails. -/
def envUnresolvable : Env where
  gethostbyname := fun _ => .nameError "Name or service not known"
  resolveA := fun _ _ => .error (.oserror "The DNS query name does not exist")
  socketNew := .ok ()
  settimeout := fun _ => .ok ()
  connectEx := fun _ _ => .error (.gaierror "Name or service not known")
  query := fun _ _ _ _ => .exc "NoNameservers" "All nameservers failed to answer the query"

/-- The host portion of a server spec: the part before the first colon
when one is present, else the whole spec. -/
def hostPart (spec : String) : String :=
  if pyHasChar spec ':' then (splitFirst spec ':').1 else spec

/-- Whether a clause is one of the two reachability clauses. -/
def isReachClause (port : Int) (s : String) : Bool :=
  decide (s = openClause) || decide (s = unreachClause port)

theorem except_map_ok {ε α β : Type} (f : α → β) (a : α) :
    (Except.ok a : Except ε α).map f = Except.ok (f a) := rfl

theorem except_map_error {ε α β : Type} (f : α → β) (e : ε) :
    (Except.error e : Except ε α).map f = (Except.error e : Except ε β) := rfl

/-- Host resolution returns a value whenever tier 1 does not raise a
non-gaierror exception: every other failure falls through to the
literal-string fallback. -/
theorem resolve_host_ok (env : Env) (h : String) (tmo : Int)
    (hh : isOtherError (env.gethostbyname h) = false) :
    ∃ ip, resolve_host env h tmo = Except.ok ip := by
  unfold resolve_host
  cases hg : env.gethostbyname h with
  | ok ip => exact ⟨ip, rfl⟩
  | nameError m =>
      cases env.resolveA h tmo with
      | ok a => exact ⟨a, rfl⟩
      | error e => exact ⟨h, rfl⟩
  | otherError e => rw [hg] at hh; simp [isOtherError] at hh

/-- Server resolution returns a target whenever the port segment (if
present) parses and tier 1 does not raise a non-gaierror exception. -/
theorem resolve_server_ok (env : Env) (spec : String) (tmo : Int)
    (hport : pyHasChar spec ':' = false ∨ (pyInt (splitFirst spec ':').2).isSome = true)
    (hh : isOtherError (env.gethostbyname (hostPart spec)) = false) :
    ∃ t, resolve_server env spec tmo = Except.ok t := by
  unfold resolve_server
  unfold hostPart at hh
  cases hc : pyHasChar spec ':' with
  | false =>
      rw [hc] at hh
      simp only [Bool.false_eq_true, if_false] at hh ⊢
      obtain ⟨ip, hip⟩ := resolve_host_ok env spec tmo hh
      exact ⟨⟨ip, 53⟩, by rw [hip]; rfl⟩
  | true =>
      rw [hc] at hh
      simp only [if_true] at hh ⊢
      rcases hport with hport | hport
      · rw [hc] at hport; exact absurd hport (by simp)
      · obtain ⟨n, hn⟩ := Option.isSome_iff_exists.mp hport
        rw [hn]
        obtain ⟨ip, hip⟩ := resolve_host_ok env (splitFirst spec ':').1 tmo hh
        exact ⟨⟨ip, n⟩, by rw [hip]; rfl⟩

/-- Once the server spec has resolved to a target, the attempt is the
query's outcome dressed up by the failure classifier. -/
theorem test_dns_latency_of_resolved (env : Env) (spec domain : String)
    (timeout retries : Int) (t : ResolvedTarget)
    (ht : resolve_server env spec timeout = Except.ok t) :
    test_dns_latency env spec domain timeout retries =
      match env.query t.ip t.port domain timeout with
      | .ok lat => ⟨.ok (.success lat), 1⟩
      | .exc ty msg =>
          ⟨.ok (.failure (full_error ty msg
            (test_port_connectivity env t.ip t.port 2).verdict t.port)), 1⟩ := by
  unfold test_dns_latency
  rw [ht]

/-- Under the same conditions the whole attempt returns an outcome: the
port check never raises, and the query's handler catches everything. -/
theorem probe_completes (env : Env) (spec domain : String) (timeout retries : Int)
    (hport : pyHasChar spec ':' = false ∨ (pyInt (splitFirst spec ':').2).isSome = true)
    (hh : isOtherError (env.gethostbyname (hostPart spec)) = false) :
    ∃ out, (test_dns_latency env spec domain timeout retries).result = Except.ok out := by
  obtain ⟨t, ht⟩ := resolve_server_ok env spec timeout hport hh
  rw [test_dns_latency_of_resolved env spec domain timeout retries t ht]
  cases env.query t.ip t.port domain timeout with
  | ok lat => exact ⟨.success lat, rfl⟩
  | exc ty msg =>
      exact ⟨.failure (full_error ty msg
        (test_port_connectivity env t.ip t.port 2).verdict t.port), rfl⟩

/-- C1 (amended): for a server spec whose port segment (when present)
parses as an integer and whose tier-1 lookup raises nothing beyond
`socket.gaierror`, no exception escapes the attempt: `test_dns_latency`
returns a `(success, result)` outcome. -/
theorem C1_no_propagation (env : Env) (spec domain : String) (timeout retries : Int)
    (hport : pyHasChar spec ':' = false ∨ (pyInt (splitFirst spec ':').2).isSome = true)
    (hh : isOtherError (env.gethostbyname (hostPart spec)) = false) :
    ∃ out, (test_dns_latency env spec domain timeout retries).result = Except.ok out :=
  probe_completes env spec domain timeout retries hport hh

/-- C1 witness at the concrete spec "8.8.8.8:53" in the benign world. -/
theorem C1_no_propagation_witness :
    ((pyInt (splitFirst "8.8.8.8:53" ':').2).isSome = true)
    ∧ isOtherError (envOk.gethostbyname (hostPart "8.8.8.8:53")) = false
    ∧ ∃ out, (test_dns_latency envOk "8.8.8.8:53" "baidu.com" 5 1).result = Except.ok out :=
  ⟨by decide, by decide,
   C1_no_propagation envOk "8.8.8.8:53" "baidu.com" 5 1 (Or.inr (by decide)) (by decide)⟩

/-- C1 counterexample: with a port segment that is not a parseable
integer, the `ValueError` from `int(port_part)` (line 31) propagates out
of `test_dns_latency` instead of becoming a `(success, result)` outcome. -/
theorem C1_counterexample :
    (test_dns_latency envOk "8.8.8.8:abc" "baidu.com" 5 1).result
      = Except.error (PyErr.valueError "invalid literal for int() with base 10: abc") := by
  decide

/-- C2: on the exception exit path of `test_port_connectivity` (here
`connect_ex` raising `socket.gaierror` on an unresolvable literal host),
the socket was created but `sock.close()` never ran — the resource is
not released on that exit path, contradicting the spec's requirement. -/
theorem C2_socket_leak :
    ((test_port_connectivity envUnresolvable
        "some-hostname-that-fails-all-resolution.invalid" 53 2).socketCreated = true)
    ∧ ((test_port_connectivity envUnresolvable
        "some-hostname-that-fails-all-resolution.invalid" 53 2).socketClosed = false)
    ∧ ((test_port_connectivity envUnresolvable
        "some-hostname-that-fails-all-resolution.invalid" 53 2).verdict = false) := by
  decide

/-- C3 counterexample: a raw error message containing both the timeout
and the refusal substrings gets only the timeout hint — the `elif` at
line 83 suppresses the refusal hint, so the two cause-hint conditions
are not independent. -/
theorem C3_counterexample :
    pyIn "refused" (pyLower "The DNS operation timed out: timeout; connection refused") = true
    ∧ refusedHint ∉ additional_info true 53
        "The DNS operation timed out: timeout; connection refused" := by
  decide

/-- C9 counterexample: the spec "8.8.8.8:70000" resolves to port 70000,
outside the claimed 1-65535 range — the code never validates bounds. -/
theorem C9_counterexample :
    resolve_server envOk "8.8.8.8:70000" 5 = Except.ok ⟨"8.8.8.8", 70000⟩
    ∧ ¬ ((1 : Int) ≤ 70000 ∧ (70000 : Int) ≤ 65535) := by
  decide

/-- When both resolution tiers fail (tier 1 with `socket.gaierror`,
tier 2 with any exception), the host resolves to itself, literally. -/
theorem resolve_host_literal (env : Env) (h : String) (tmo : Int)
    (m : String) (e2 : PyErr)
    (h1 : env.gethostbyname h = HostLookup.nameError m)
    (h2 : env.resolveA h tmo = Except.error e2) :
    resolve_host env h tmo = Except.ok h := by
  unfold resolve_host
  rw [h1, h2]

/-- C4: when the host portion fails tier-1 resolution with a
name-lookup failure and tier-2 resolution with any exception, the
resolver returns the host portion literally and unchanged as the target
ip (port 53 when the spec has no colon), and the attempt still returns
an outcome rather than crashing. -/
theorem C4_literal_fallback (env : Env) (spec domain : String)
    (timeout retries : Int) (m : String) (e2 : PyErr)
    (h1 : env.gethostbyname (hostPart spec) = HostLookup.nameError m)
    (h2 : env.resolveA (hostPart spec) timeout = Except.error e2)
    (hport : pyHasChar spec ':' = false ∨ (pyInt (splitFirst spec ':').2).isSome = true) :
    (∀ t, resolve_server env spec timeout = Except.ok t → t.ip = hostPart spec)
    ∧ (pyHasChar spec ':' = false →
        resolve_server env spec timeout = Except.ok ⟨spec, 53⟩)
    ∧ ∃ out, (test_dns_latency env spec domain timeout retries).result = Except.ok out := by
  have hlit := resolve_host_literal env (hostPart spec) timeout m e2 h1 h2
  have hoe : isOtherError (env.gethostbyname (hostPart spec)) = false := by
    rw [h1]; rfl
  refine ⟨?_, ?_, probe_completes env spec domain timeout retries hport hoe⟩
  · intro t hok
    unfold resolve_server at hok
    unfold hostPart at hlit
    cases hc : pyHasChar spec ':' with
    | false =>
        rw [hc] at hok hlit
        simp only [Bool.false_eq_true, if_false] at hok hlit
        rw [hlit, except_map_ok] at hok
        injection hok with h
        subst h
        simp [hostPart, hc]
    | true =>
        rw [hc] at hok hlit
        simp only [if_true] at hok hlit
        rcases hport with hport | hport
        · rw [hc] at hport; exact absurd hport (by decide)
        · obtain ⟨n, hn⟩ := Option.isSome_iff_exists.mp hport
          simp only [hn] at hok
          rw [hlit, except_map_ok] at hok
          injection hok with h
          subst h
          simp [hostPart, hc]
  · intro hc
    unfold resolve_server
    unfold hostPart at hlit
    rw [hc] at hlit
    simp only [Bool.false_eq_true, if_false] at hlit
    rw [hc]
    simp only [Bool.false_eq_true, if_false]
    rw [hlit, except_map_ok]

/-- C4 witness at the spec "some-hostname-that-fails-all-resolution.invalid"
in a world where every resolution tier fails. -/
theorem C4_literal_fallback_witness :
    envUnresolvable.gethostbyname (hostPart "some-hostname-that-fails-all-resolution.invalid")
        = HostLookup.nameError "Name or service not known"
    ∧ ((∀ t, resolve_server envUnresolvable "some-hostname-that-fails-all-resolution.invalid" 5
          = Except.ok t → t.ip = hostPart "some-hostname-that-fails-all-resolution.invalid")
      ∧ (pyHasChar "some-hostname-that-fails-all-resolution.invalid" ':' = false →
          resolve_server envUnresolvable "some-hostname-that-fails-all-resolution.invalid" 5
            = Except.ok ⟨"some-hostname-that-fails-all-resolution.invalid", 53⟩)
      ∧ ∃ out, (test_dns_latency envUnresolvable
          "some-hostname-that-fails-all-resolution.invalid" "baidu.com" 5 1).result
            = Except.ok out) :=
  ⟨by decide,
   C4_literal_fallback envUnresolvable "some-hostname-that-fails-all-resolution.invalid"
     "baidu.com" 5 1 "Name or service not known"
     (PyErr.oserror "The DNS query name does not exist")
     (by decide) (by decide) (Or.inl (by decide))⟩

/-- C5: the resolved port is 53 when the spec has no colon, and the
integer parse of the segment after the first colon otherwise. -/
theorem C5_port_resolution (env : Env) (spec : String) (timeout : Int)
    (t : ResolvedTarget)
    (hok : resolve_server env spec timeout = Except.ok t) :
    (pyHasChar spec ':' = false → t.port = 53)
    ∧ (∀ n : Int, pyHasChar spec ':' = true →
        pyInt (splitFirst spec ':').2 = some n → t.port = n) := by
  unfold resolve_server at hok
  cases hc : pyHasChar spec ':' with
  | false =>
      rw [hc] at hok
      simp only [Bool.false_eq_true, if_false] at hok
      refine ⟨fun _ => ?_, fun n hct _ => absurd hct (by decide)⟩
      cases hr : resolve_host env spec timeout with
      | ok ip =>
          rw [hr, except_map_ok] at hok
          injection hok with h
          subst h
          rfl
      | error e => rw [hr, except_map_error] at hok; exact Except.noConfusion hok
  | true =>
      rw [hc] at hok
      simp only [if_true] at hok
      refine ⟨fun hcf => absurd hcf (by decide), fun n _ hn => ?_⟩
      simp only [hn] at hok
      cases hr : resolve_host env (splitFirst spec ':').1 timeout with
      | ok ip =>
          rw [hr, except_map_ok] at hok
          injection hok with h
          subst h
          rfl
      | error e => rw [hr, except_map_error] at hok; exact Except.noConfusion hok

/-- C5 witness at the spec "203.0.113.5:5353". -/
theorem C5_port_resolution_witness :
    resolve_server envOk "203.0.113.5:5353" 5 = Except.ok ⟨"203.0.113.5", 5353⟩
    ∧ ((pyHasChar "203.0.113.5:5353" ':' = false →
          (⟨"203.0.113.5", (5353 : Int)⟩ : ResolvedTarget).port = 53)
      ∧ (∀ n : Int, pyHasChar "203.0.113.5:5353" ':' = true →
          pyInt (splitFirst "203.0.113.5:5353" ':').2 = some n →
          (⟨"203.0.113.5", (5353 : Int)⟩ : ResolvedTarget).port = n)) :=
  ⟨by decide,
   C5_port_resolution envOk "203.0.113.5:5353" 5 ⟨"203.0.113.5", 5353⟩ (by decide)⟩

/-- C9 (amended): the resolved port is exactly the raw integer parse of
the port segment, with no 1-65535 range validation at all. -/
theorem C9_port_unvalidated (env : Env) (spec : String) (timeout : Int)
    (t : ResolvedTarget) (n : Int)
    (hc : pyHasChar spec ':' = true)
    (hp : pyInt (splitFirst spec ':').2 = some n)
    (hok : resolve_server env spec timeout = Except.ok t) :
    t.port = n := by
  unfold resolve_server at hok
  rw [hc] at hok
  simp only [if_true] at hok
  simp only [hp] at hok
  cases hr : resolve_host env (splitFirst spec ':').1 timeout with
  | ok ip =>
      rw [hr, except_map_ok] at hok
      injection hok with h
      subst h
      rfl
  | error e => rw [hr, except_map_error] at hok; exact Except.noConfusion hok

/-- C9 witness at the spec "8.8.8.8:0", whose resolved port 0 lies
below the claimed range. -/
theorem C9_port_unvalidated_witness :
    pyInt (splitFirst "8.8.8.8:0" ':').2 = some 0
    ∧ resolve_server envOk "8.8.8.8:0" 5 = Except.ok ⟨"8.8.8.8", 0⟩
    ∧ (⟨"8.8.8.8", (0 : Int)⟩ : ResolvedTarget).port = 0 :=
  ⟨by decide, by decide,
   C9_port_unvalidated envOk "8.8.8.8:0" 5 ⟨"8.8.8.8", 0⟩ 0
     (by decide) (by decide) (by decide)⟩

/-- C7: the port check's verdict is true exactly when socket
construction, `settimeout` and `connect_ex` all complete and the
returned error code is 0; every exception and every nonzero code yields
false, and the printed diagnostics play no part in the verdict. -/
theorem C7_port_check_boolean (env : Env) (ip : String) (port timeout : Int) :
    (test_port_connectivity env ip port timeout).verdict = true ↔
      (env.socketNew = Except.ok () ∧ env.settimeout timeout = Except.ok ()
        ∧ env.connectEx ip port = Except.ok 0) := by
  unfold test_port_connectivity
  cases hs : env.socketNew with
  | error e => simp [hs]
  | ok u =>
    cases ht : env.settimeout timeout with
    | error e => simp [hs, ht]
    | ok v =>
      cases hc : env.connectEx ip port with
      | error e => simp [hs, ht, hc]
      | ok code =>
        cases u
        cases v
        simp [hs, ht, hc, beq_iff_eq]

/-- C8: `retries` is dead — two calls differing only in the retries
argument are the same value, and any call that returns an outcome
issued exactly one DNS query against the server under test. -/
theorem C8_retries_noop (env : Env) (server domain : String)
    (timeout r1 r2 : Int) :
    test_dns_latency env server domain timeout r1
      = test_dns_latency env server domain timeout r2
    ∧ (∀ out, (test_dns_latency env server domain timeout r1).result = Except.ok out →
        (test_dns_latency env server domain timeout r1).queriesIssued = 1) := by
  refine ⟨rfl, fun out h => ?_⟩
  cases hres : resolve_server env server timeout with
  | error e =>
      have hr : test_dns_latency env server domain timeout r1 = ⟨.error e, 0⟩ := by
        unfold test_dns_latency
        rw [hres]
      rw [hr] at h
      exact Except.noConfusion h
  | ok t =>
      rw [test_dns_latency_of_resolved env server domain timeout r1 t hres]
      cases env.query t.ip t.port domain timeout <;> rfl

/-- Processing the outcomes one by one keeps every component of the
loop bookkeeping in step with counts over the processed outcomes. -/
theorem foldl_loopStep (l : List ProbeOutcome) (s : LoopState) :
    (l.foldl loopStep s).results.length = s.results.length + l.length
    ∧ (l.foldl loopStep s).success_count = s.success_count + l.countP isSuccess
    ∧ (l.foldl loopStep s).results.countP (fun r => !r.1)
        = s.results.countP (fun r => !r.1) + l.countP (fun o => !isSuccess o)
    ∧ (l.foldl loopStep s).latency_list = s.latency_list ++ l.filterMap latOf := by
  induction l generalizing s with
  | nil => simp
  | cons o rest ih =>
    obtain ⟨ih1, ih2, ih3, ih4⟩ := ih (loopStep s o)
    rw [List.foldl_cons]
    cases o with
    | success lat =>
      have hres : (loopStep s (ProbeOutcome.success lat)).results
          = s.results ++ [(true, ProbeOutcome.success lat)] := rfl
      have hsc : (loopStep s (ProbeOutcome.success lat)).success_count
          = s.success_count + 1 := rfl
      have hlat : (loopStep s (ProbeOutcome.success lat)).latency_list
          = s.latency_list ++ [lat] := rfl
      have hc1 : List.countP isSuccess (ProbeOutcome.success lat :: rest)
          = List.countP isSuccess rest + 1 :=
        List.countP_cons_of_pos _ rest rfl
      have hc2 : List.countP (fun o => !isSuccess o) (ProbeOutcome.success lat :: rest)
          = List.countP (fun o => !isSuccess o) rest :=
        List.countP_cons_of_neg _ rest Bool.false_ne_true
      have hc3 : List.countP (fun r => !r.1) [((true : Bool), ProbeOutcome.success lat)]
          = 0 := rfl
      have hfm : (ProbeOutcome.success lat :: rest).filterMap latOf
          = lat :: rest.filterMap latOf :=
        List.filterMap_cons_some (show latOf (ProbeOutcome.success lat) = some lat from rfl)
      refine ⟨?_, ?_, ?_, ?_⟩
      · rw [ih1, hres, List.length_append, List.length_cons, List.length_cons,
          List.length_nil]
        omega
      · rw [ih2, hsc, hc1]
        omega
      · rw [ih3, hres, List.countP_append, hc2, hc3]
        omega
      · rw [ih4, hlat, hfm, List.append_assoc]
        rfl
    | failure m =>
      have hres : (loopStep s (ProbeOutcome.failure m)).results
          = s.results ++ [(false, ProbeOutcome.failure m)] := rfl
      have hsc : (loopStep s (ProbeOutcome.failure m)).success_count
          = s.success_count := rfl
      have hlat : (loopStep s (ProbeOutcome.failure m)).latency_list
          = s.latency_list := rfl
      have hc1 : List.countP isSuccess (ProbeOutcome.failure m :: rest)
          = List.countP isSuccess rest :=
        List.countP_cons_of_neg _ rest Bool.false_ne_true
      have hc2 : List.countP (fun o => !isSuccess o) (ProbeOutcome.failure m :: rest)
          = List.countP (fun o => !isSuccess o) rest + 1 :=
        List.countP_cons_of_pos _ rest rfl
      have hc3 : List.countP (fun r => !r.1) [((false : Bool), ProbeOutcome.failure m)]
          = 1 := rfl
      have hfm : (ProbeOutcome.failure m :: rest).filterMap latOf
          = rest.filterMap latOf :=
        List.filterMap_cons_none (show latOf (ProbeOutcome.failure m) = none from rfl)
      refine ⟨?_, ?_, ?_, ?_⟩
      · rw [ih1, hres, List.length_append, List.length_cons, List.length_cons,
          List.length_nil]
        omega
      · rw [ih2, hsc, hc1]
      · rw [ih3, hres, List.countP_append, hc2, hc3]
        omega
      · rw [ih4, hlat, hfm]

/-- Successes and failures of a run partition it. -/
theorem countP_success_split (l : List ProbeOutcome) :
    l.countP isSuccess + l.countP (fun o => !isSuccess o) = l.length := by
  induction l with
  | nil => rfl
  | cons o rest ih =>
    cases o with
    | success lat =>
        have h1 : List.countP isSuccess (ProbeOutcome.success lat :: rest)
            = List.countP isSuccess rest + 1 :=
          List.countP_cons_of_pos _ rest rfl
        have h2 : List.countP (fun o => !isSuccess o) (ProbeOutcome.success lat :: rest)
            = List.countP (fun o => !isSuccess o) rest :=
          List.countP_cons_of_neg _ rest Bool.false_ne_true
        rw [h1, h2, List.length_cons]
        omega
    | failure m =>
        have h1 : List.countP isSuccess (ProbeOutcome.failure m :: rest)
            = List.countP isSuccess rest :=
          List.countP_cons_of_neg _ rest Bool.false_ne_true
        have h2 : List.countP (fun o => !isSuccess o) (ProbeOutcome.failure m :: rest)
            = List.countP (fun o => !isSuccess o) rest + 1 :=
          List.countP_cons_of_pos _ rest rfl
        rw [h1, h2, List.length_cons]
        omega

/-- Each success contributes exactly its one latency. -/
theorem length_filterMap_latOf (l : List ProbeOutcome) :
    (l.filterMap latOf).length = l.countP isSuccess := by
  induction l with
  | nil => rfl
  | cons o rest ih =>
    cases o with
    | success lat =>
        have h1 : (ProbeOutcome.success lat :: rest).filterMap latOf
            = lat :: rest.filterMap latOf :=
          List.filterMap_cons_some (show latOf (ProbeOutcome.success lat) = some lat from rfl)
        have h2 : List.countP isSuccess (ProbeOutcome.success lat :: rest)
            = List.countP isSuccess rest + 1 :=
          List.countP_cons_of_pos _ rest rfl
        rw [h1, h2, List.length_cons, ih]
    | failure m =>
        have h1 : (ProbeOutcome.failure m :: rest).filterMap latOf
            = rest.filterMap latOf :=
          List.filterMap_cons_none (show latOf (ProbeOutcome.failure m) = none from rfl)
        have h2 : List.countP isSuccess (ProbeOutcome.failure m :: rest)
            = List.countP isSuccess rest :=
          List.countP_cons_of_neg _ rest Bool.false_ne_true
        rw [h1, h2, ih]

/-- C6: after any number k of loop iterations over the attempt
outcomes, the collected success count plus the recorded failure count
equals the number of processed attempts, the success count never
exceeds it, and the latency list holds exactly the successful
latencies, one per success, in attempt order. -/
theorem C6_loop_invariant (outcomes : List ProbeOutcome) (k : Nat) :
    (runLoop (outcomes.take k)).success_count
        + (runLoop (outcomes.take k)).results.countP (fun r => !r.1)
      = (outcomes.take k).length
    ∧ (runLoop (outcomes.take k)).success_count ≤ (outcomes.take k).length
    ∧ (runLoop (outcomes.take k)).latency_list.length
        = (runLoop (outcomes.take k)).success_count
    ∧ (runLoop (outcomes.take k)).latency_list
        = (outcomes.take k).filterMap latOf
    ∧ (runLoop (outcomes.take k)).results.length = (outcomes.take k).length := by
  obtain ⟨h1, h2, h3, h4⟩ := foldl_loopStep (outcomes.take k) ⟨[], 0, []⟩
  dsimp only at h1 h2 h3 h4
  simp only [List.length_nil, List.countP_nil, List.nil_append, Nat.zero_add] at h1 h2 h3 h4
  unfold runLoop
  rw [h1, h2, h3, h4]
  refine ⟨countP_success_split _, List.countP_le_length _, ?_, rfl, rfl⟩
  exact length_filterMap_latOf _

/-- C10: the summary's success-rate division is unguarded — a run of
zero attempts fails with `ZeroDivisionError` while the loop state
itself is perfectly well formed, and any run of at least one attempt
produces a summary. -/
theorem C10_summary_guard (outcomes : List ProbeOutcome)
    (h : 1 ≤ outcomes.length) :
    run_summary [] = Except.error PyErr.zeroDivisionError
    ∧ runLoop [] = ⟨[], 0, []⟩
    ∧ ∃ s, run_summary outcomes = Except.ok s := by
  refine ⟨rfl, rfl, ?_⟩
  have hne : outcomes.length ≠ 0 := by omega
  unfold run_summary pyDivNat
  rw [if_neg hne]
  exact ⟨_, rfl⟩

/-- C10 witness at a run of one failed attempt. -/
theorem C10_summary_guard_witness :
    1 ≤ [ProbeOutcome.failure "err"].length
    ∧ (run_summary [] = Except.error PyErr.zeroDivisionError
      ∧ runLoop [] = ⟨[], 0, []⟩
      ∧ ∃ s, run_summary [ProbeOutcome.failure "err"] = Except.ok s) :=
  ⟨by decide, C10_summary_guard [ProbeOutcome.failure "err"] (by decide)⟩

/-- The unreachable-port clause always starts with the character 端,
whatever the port number renders as. -/
theorem unreachClause_head (port : Int) :
    (unreachClause port).data.head? = some '端' := by
  have h : unreachClause port = "端口" ++ (toString port ++ "无法连接") := rfl
  rw [h, String.data_append]
  rfl

/-- The unreachable-port clause is never the timeout hint. -/
theorem unreach_ne_timeoutHint (port : Int) : unreachClause port ≠ timeoutHint := by
  intro h
  have h2 := congrArg (fun s => s.data.head?) h
  simp only at h2
  rw [unreachClause_head] at h2
  exact absurd h2 (by decide)

/-- The unreachable-port clause is never the refusal hint. -/
theorem unreach_ne_refusedHint (port : Int) : unreachClause port ≠ refusedHint := by
  intro h
  have h2 := congrArg (fun s => s.data.head?) h
  simp only at h2
  rw [unreachClause_head] at h2
  exact absurd h2 (by decide)

/-- C3 (amended): the clause list of a failure diagnostic holds exactly
one reachability clause, placed first and chosen by the port verdict;
it holds the timeout hint iff the lowercased raw message contains
"timeout"; and it holds the refusal hint iff the lowercased raw message
contains "refused" and does not contain "timeout" — the `elif` makes
the refusal hint conditional on the absence of the timeout substring. -/
theorem C3_diagnostic_clauses (po : Bool) (port : Int) (msg : String) :
    (additional_info po port msg).countP (fun s => isReachClause port s) = 1
    ∧ (additional_info po port msg).head?
        = some (if po then openClause else unreachClause port)
    ∧ (timeoutHint ∈ additional_info po port msg
        ↔ pyIn "timeout" (pyLower msg) = true)
    ∧ (refusedHint ∈ additional_info po port msg
        ↔ (pyIn "refused" (pyLower msg) = true
            ∧ pyIn "timeout" (pyLower msg) = false)) := by
  have hrt : isReachClause port timeoutHint = false := by
    simp only [isReachClause, Bool.or_eq_false_iff, decide_eq_false_iff_not]
    exact ⟨by decide, fun h => unreach_ne_timeoutHint port h.symm⟩
  have hrr : isReachClause port refusedHint = false := by
    simp only [isReachClause, Bool.or_eq_false_iff, decide_eq_false_iff_not]
    exact ⟨by decide, fun h => unreach_ne_refusedHint port h.symm⟩
  have hbase : ∀ po' : Bool,
      isReachClause port (if po' then openClause else unreachClause port) = true := by
    intro po'
    cases po' <;> simp [isReachClause]
  have htne : timeoutHint ≠ (if po then openClause else unreachClause port) := by
    cases po
    · exact fun h => unreach_ne_timeoutHint port h.symm
    · rw [if_pos rfl]; decide
  have hrne : refusedHint ≠ (if po then openClause else unreachClause port) := by
    cases po
    · exact fun h => unreach_ne_refusedHint port h.symm
    · rw [if_pos rfl]; decide
  have hinfo : additional_info po port msg
      = (if po then openClause else unreachClause port) ::
          (if pyIn "timeout" (pyLower msg) then [timeoutHint]
           else if pyIn "refused" (pyLower msg) then [refusedHint] else []) := by
    unfold additional_info
    cases po <;> cases ht : pyIn "timeout" (pyLower msg) <;>
      cases hr : pyIn "refused" (pyLower msg) <;> simp [ht, hr]
  rw [hinfo]
  have htr : ¬ (refusedHint = timeoutHint) := by decide
  have hrt2 : ¬ (timeoutHint = refusedHint) := by decide
  cases ht : pyIn "timeout" (pyLower msg) <;>
    cases hr : pyIn "refused" (pyLower msg) <;>
      simp [List.countP_cons, hbase po, hrt, hrr, htne, hrne, htr, hrt2]

end DnsDelay
